import Mathlib

/-!
Shallow embedding of the validation and cross-referencing engine of the
climate-disclosure-agent repository, together with theorems settling the
frozen claims about it.

Conventions of the embedding:
* Python floats are modelled as `Rat`; every number any claim compares is
  exactly representable in IEEE double, so no rounding gap is introduced.
* Python `Optional[T]` is `Option T`; truthiness of an optional float
  (`if emission.value:`) is `(v ≠ none ∧ v ≠ some 0)` as in the source.
* A pydantic model whose field is declared `float` rejects `None` at
  construction time; this is modelled by a smart constructor returning
  `Except String _`.
* A Python exception raised by a collaborator is modelled as the
  `Except.error` branch of that collaborator's recorded outcome.
-/

/-- Python substring test `needle in hay.lower()`, evaluated on the
character lists of the two strings (`str.lower` of the haystack). -/
def pyInLower (needle hay : String) : Bool :=
  decide (needle.data <:+: hay.data.map Char.toLower)

/-- Python `s.startswith(pre)`, evaluated on character lists. -/
def pyStartsWith (s pre : String) : Bool :=
  decide (pre.data <+: s.data)

/-- Python `str(dict)` rendering of a `{str: str}` mapping, as used by
`CompletenessValidator._check_tcfd` (`"scenario" in str(extract.source_references).lower()`). -/
def pyStrOfDict (d : List (String × String)) : String :=
  "\x7b" ++ String.intercalate ", " (d.map fun kv => "'" ++ kv.1 ++ "': '" ++ kv.2 ++ "'") ++ "\x7d"

/-- Severity levels, the `Severity` str enum of `cda/validation/base.py`. -/
inductive Severity where
  | info
  | warning
  | critical
deriving DecidableEq, Repr

/-- Emission scopes, the `EmissionScope` str enum of `cda/extraction/schema.py`. -/
inductive EmissionScope where
  | scope_1
  | scope_2
  | scope_3
deriving DecidableEq, Repr

/-- Model of `EmissionData` from `cda/extraction/schema.py`. -/
structure EmissionData where
  scope : EmissionScope
  value : Option Rat := none
  unit : String := "tCO2e"
  year : Option Int := none
  baseline_year : Option Int := none
  intensity_value : Option Rat := none
  intensity_unit : Option String := none
  methodology : Option String := none
  assurance_level : Option String := none
deriving DecidableEq, Repr

/-- Model of `TargetData` from `cda/extraction/schema.py`; the entries of the
`interim_targets: List[dict]` list are only ever tested for truthiness, so a
dict is embedded as an association list. -/
structure TargetData where
  description : String
  target_year : Option Int := none
  base_year : Option Int := none
  reduction_pct : Option Rat := none
  scopes_covered : List EmissionScope := []
  is_science_based : Option Bool := none
  sbti_status : Option String := none
  interim_targets : List (List (String × String)) := []
deriving DecidableEq, Repr

/-- Model of `RiskItem` from `cda/extraction/schema.py`. -/
structure RiskItem where
  risk_type : String
  category : String
  description : String
  time_horizon : Option String := none
  financial_impact : Option String := none
  financial_impact_value : Option Rat := none
  mitigation_strategy : Option String := none
  likelihood : Option String := none
deriving DecidableEq, Repr

/-- Model of `GovernanceData` from `cda/extraction/schema.py`. -/
structure GovernanceData where
  board_oversight : Option Bool := none
  board_climate_committee : Option Bool := none
  executive_incentive_linked : Option Bool := none
  reporting_frequency : Option String := none
deriving DecidableEq, Repr

/-- Model of `DisclosureExtract` from `cda/extraction/schema.py`; the
`source_references: dict[str, str]` mapping is an association list. -/
structure DisclosureExtract where
  company_name : String
  report_year : Int
  report_type : String := "sustainability"
  framework : List String := []
  sector : Option String := none
  emissions : List EmissionData := []
  targets : List TargetData := []
  risks : List RiskItem := []
  governance : GovernanceData := {}
  source_references : List (String × String) := []
  extraction_confidence : Rat := 0
  extraction_method : String := "llm"
deriving DecidableEq, Repr

/-- Model of the `ValidationFinding` pydantic model of `cda/validation/base.py`. -/
structure ValidationFinding where
  validator : String
  code : String
  severity : Severity
  message : String
  field : Option String := none
  evidence : Option String := none
  recommendation : Option String := none
deriving DecidableEq, Repr

/-- Model of `ValidationResult` from `cda/validation/base.py`.  The `score` field is
declared `float` (not `Optional[float]`), so a constructed instance always
carries a rational score; the free-form `metadata` mapping carries no
structure any claim depends on and is left out of the embedding. -/
structure ValidationResult where
  validator_name : String
  score : Rat
  max_score : Rat := 1
  findings : List ValidationFinding := []
deriving DecidableEq, Repr

/-- Pydantic construction of a `ValidationResult` from a Python call site
that may pass `score=None`: the field type `float` rejects `None`, raising
`ValidationError`; any other value is accepted. -/
def mkValidationResult (name : String) (score : Option Rat)
    (findings : List ValidationFinding) : Except String ValidationResult :=
  match score with
  | some q => .ok { validator_name := name, score := q, findings := findings }
  | none => .error "ValidationError: score none is not an allowed value"

namespace ConsistencyValidator

/-- Model of `_scope3_material` from `cda/validation/consistency.py`: loops over emission
entries; a truthy `emission.value` is added to the running total and a
scope-3 truthy value overwrites (not accumulates) `scope3_emissions`. -/
def scope3_material (extract : DisclosureExtract) : Bool :=
  let st := extract.emissions.foldl
    (fun (acc : Rat × Rat) emission =>
      match emission.value with
      | some v =>
        if v ≠ 0 then
          (acc.1 + v, if emission.scope = EmissionScope.scope_3 then v else acc.2)
        else acc
      | none => acc)
    (0, 0)
  st.2 > 0 && st.1 > 0 && st.2 / st.1 > (2/5 : Rat)

/-- Model of `_mentions_climate_investment` from `cda/validation/consistency.py`. -/
def mentions_climate_investment (extract : DisclosureExtract) : Bool :=
  let refs_text := String.intercalate " " (extract.source_references.map Prod.snd)
  ["investment", "investing", "capital expenditure", "capex", "funding"].any
    fun keyword => pyInLower keyword refs_text

/-- Model of `_has_specific_projects` from `cda/validation/consistency.py`. -/
def has_specific_projects (extract : DisclosureExtract) : Bool :=
  let refs_text := String.intercalate " " (extract.source_references.map Prod.snd)
  ["project", "initiative", "technology", "program", "solution"].any
    fun keyword => pyInLower keyword refs_text

/-- Model of `_check_timeline_monotonicity` from
`cda/validation/consistency.py`; `if target.target_year and target.base_year`
tests Python truthiness, under which a year of 0 skips the comparison. -/
def check_timeline_monotonicity (targets : List TargetData) : Bool :=
  if targets.length < 2 then true
  else targets.all fun target =>
    match target.target_year, target.base_year with
    | some ty, some by' =>
      if ty ≠ 0 ∧ by' ≠ 0 then (if ty ≤ by' then false else true) else true
    | _, _ => true

/-- One entry of `ConsistencyValidator.RULES`. -/
structure Rule where
  code : String
  name : String
  condition : DisclosureExtract → Bool
  check : DisclosureExtract → Bool
  message : String
  severity : Severity

/-- Model of `ConsistencyValidator.RULES` from `cda/validation/consistency.py`. -/
def RULES : List Rule :=
  [ { code := "CONSIST-001"
    , name := "net_zero_pathway"
    , condition := fun e => e.targets.any fun t => pyInLower "net zero" t.description
    , check := fun e => (e.targets.filter fun t => pyInLower "net zero" t.description).any
        fun t => !t.interim_targets.isEmpty
    , message := "Net Zero target declared but no interim milestones found"
    , severity := .critical }
  , { code := "CONSIST-002"
    , name := "scope3_materiality"
    , condition := fun e => scope3_material e
    , check := fun e => e.risks.any fun r =>
        ["supply_chain", "value_chain", "upstream", "downstream"].any fun c => r.category = c
    , message := "Scope 3 appears material (>40% of total) but no supply chain risk disclosed"
    , severity := .warning }
  , { code := "CONSIST-003"
    , name := "target_timeline_logic"
    , condition := fun e => e.targets.length > 1
    , check := fun e => check_timeline_monotonicity e.targets
    , message := "Target timeline inconsistency: target year should be after base year"
    , severity := .warning }
  , { code := "CONSIST-004"
    , name := "investment_specificity"
    , condition := fun e => mentions_climate_investment e
    , check := fun e => has_specific_projects e
    , message := "Climate investment amount mentioned without specific project breakdown"
    , severity := .info }
  , { code := "CONSIST-005"
    , name := "governance_action_gap"
    , condition := fun e => e.governance.board_oversight = some true
    , check := fun e => e.governance.executive_incentive_linked ≠ none
    , message := "Board oversight claimed but executive incentive linkage not specified"
    , severity := .warning } ]

/-- Finding produced through `BaseValidator._finding` for a failed rule. -/
def ruleFinding (rule : Rule) : ValidationFinding :=
  { validator := "consistency", code := rule.code, severity := rule.severity
  , message := rule.message }

/-- Model of `ConsistencyValidator.validate` from `cda/validation/consistency.py`:
fold over `RULES` accumulating findings, passed count and applicable count. -/
def validate (extract : DisclosureExtract) : ValidationResult :=
  let st := RULES.foldl
    (fun (acc : List ValidationFinding × Nat × Nat) rule =>
      if rule.condition extract then
        if rule.check extract then (acc.1, acc.2.1 + 1, acc.2.2 + 1)
        else (acc.1 ++ [ruleFinding rule], acc.2.1, acc.2.2 + 1)
      else acc)
    ([], 0, 0)
  let score : Rat := if st.2.2 > 0 then (st.2.1 : Rat) / (st.2.2 : Rat) else 1
  { validator_name := "consistency", score := score, findings := st.1 }

/-- Number of rules whose applicability condition holds on the record. -/
def applicableCount (extract : DisclosureExtract) : Nat :=
  (RULES.filter fun rule => rule.condition extract).length

/-- Number of rules whose condition holds and whose check passes. -/
def passedCount (extract : DisclosureExtract) : Nat :=
  (RULES.filter fun rule => rule.condition extract && rule.check extract).length

end ConsistencyValidator

namespace CredibilityScorer

/-- Model of `NewsArticle` from `cda/validation/news_models.py`. -/
structure NewsArticle where
  title : String
  url : String
  source : String
  published_date : String
  snippet : String
  full_text : Option String := none
  relevance_score : Rat := 0
deriving DecidableEq, Repr

/-- Event types, the `EventType` str enum of `cda/validation/news_models.py`. -/
inductive EventType where
  | fine
  | lawsuit
  | accident
  | regulation
  | violation
  | investigation
  | ngo_report
  | other
deriving DecidableEq, Repr

/-- Contradiction types, the `ContradictionType` str enum of `cda/validation/news_models.py`. -/
inductive ContradictionType where
  | omission
  | misrepresentation
  | timing_mismatch
  | magnitude_mismatch
deriving DecidableEq, Repr

/-- Model of `EnvironmentalEvent` from `cda/validation/news_models.py`. -/
structure EnvironmentalEvent where
  event_type : EventType
  description : String
  date : String
  severity : String
  financial_impact : Option Rat := none
  source_article : NewsArticle
  keywords : List String := []
  confidence : Rat := 0
deriving DecidableEq, Repr

/-- Model of `Contradiction` from `cda/validation/news_models.py`; `severity` is a plain
string (`critical`/`warning`/`info`). -/
structure Contradiction where
  contradiction_type : ContradictionType
  severity : String
  claim_in_report : Option String := none
  evidence_from_news : String
  event : EnvironmentalEvent
  impact_on_credibility : Rat
  recommendation : String
deriving DecidableEq, Repr

/-- Model of `CredibilityScorer.score` from `cda/validation/credibility_scorer.py`:
start at 100, subtract per contradiction severity, floor at 0, then force
100 when no event and no contradiction. -/
def score (contradictions : List Contradiction) (total_events : Nat) : Rat :=
  let base_score := contradictions.foldl
    (fun (acc : Rat) contradiction =>
      if contradiction.severity = "critical" then acc - 30
      else if contradiction.severity = "warning" then acc - 15
      else if contradiction.severity = "info" then acc - 5
      else acc)
    100
  let credibility_score := max 0 base_score
  if total_events = 0 ∧ contradictions = [] then 100 else credibility_score

end CredibilityScorer

/-- Severity-weighted deduction of one contradiction (30/15/5, else 0). -/
def severityDeduction (c : CredibilityScorer.Contradiction) : Rat :=
  if c.severity = "critical" then 30
  else if c.severity = "warning" then 15
  else if c.severity = "info" then 5
  else 0

namespace CompletenessValidator

/-- Model of `_check_tcfd` from `cda/validation/completeness.py`: the ten checks the
method computes, in insertion order of the returned dict.  The checklist
key `strategy_resilience` and `integration_with_erm` entries of
`TCFD_CHECKLIST` are never computed by `_check_tcfd`.  The membership test
`r.category is not None` is identically true because `RiskItem.category`
is a required `str` field. -/
def check_tcfd (extract : DisclosureExtract) : List (String × Bool) :=
  [ ("board_oversight", extract.governance.board_oversight ≠ none)
  , ("management_role", extract.governance.reporting_frequency ≠ none)
  , ("climate_risks_identified", extract.risks.length > 0)
  , ("climate_opportunities", extract.risks.any fun r => pyInLower "opportunity" r.description)
  , ("scenario_analysis", pyInLower "scenario" (pyStrOfDict extract.source_references))
  , ("risk_identification_process", extract.risks.any fun _r => true)
  , ("risk_management_process", extract.risks.any fun r => r.mitigation_strategy ≠ none)
  , ("ghg_emissions", extract.emissions.length > 0)
  , ("climate_targets", extract.targets.length > 0)
  , ("progress_tracking", extract.emissions.any fun e => e.baseline_year ≠ none) ]

/-- Number of items of `TCFD_CHECKLIST` (`sum(len(v) for v in ...)`):
governance 2 + strategy 4 + risk_management 3 + metrics_targets 3. -/
def totalItems : Nat := 2 + 4 + 3 + 3

/-- Number of `True` entries among the computed TCFD checks. -/
def coveredItems (extract : DisclosureExtract) : Nat :=
  ((check_tcfd extract).filter Prod.snd).length

/-- Model of `CompletenessValidator.validate` from `cda/validation/completeness.py`:
score = covered / total; one warning finding per uncovered computed item
(the SASB sector check is informational only and contributes no finding
and no score). -/
def validate (extract : DisclosureExtract) : ValidationResult :=
  let tcfd_results := check_tcfd extract
  let score : Rat := (coveredItems extract : Rat) / (totalItems : Rat)
  let findings := (tcfd_results.filter fun item => !item.2).map fun item =>
    ({ validator := "completeness"
     , code := "COMPL-TCFD-" ++ item.1.toUpper
     , severity := .warning
     , message := "TCFD recommended disclosure missing: " ++ item.1
     , field := some item.1 } : ValidationFinding)
  { validator_name := "completeness", score := score, findings := findings }

end CompletenessValidator

namespace RiskCoverageValidator

/-- Model of `RiskCoverageValidator.validate` from
`climate-disclosure-agent-v2/cda/validation/risk_coverage.py`.
`RiskCoverageValidator.validate`. -/
def validate (extract : DisclosureExtract) : ValidationResult :=
  let has_physical := extract.risks.any fun r => r.risk_type = "physical"
  let has_transition := extract.risks.any fun r => r.risk_type = "transition"
  let findings₁ : List ValidationFinding :=
    if !has_physical then
      [{ validator := "risk_coverage", code := "RISK-001", severity := .critical
       , message := "No physical climate risks disclosed" }]
    else []
  let findings₂ : List ValidationFinding :=
    if !has_transition then
      [{ validator := "risk_coverage", code := "RISK-002", severity := .critical
       , message := "No transition climate risks disclosed" }]
    else []
  let quantified_risks := extract.risks.filter fun r => r.financial_impact_value ≠ none
  let quantification_rate : Rat :=
    (quantified_risks.length : Rat) / (max extract.risks.length 1 : Nat)
  let findings₃ : List ValidationFinding :=
    if quantification_rate < (3/10 : Rat) then
      -- the source interpolates the rate as a percentage into this message;
      -- the numeric display formatting is abstracted
      [{ validator := "risk_coverage", code := "RISK-003", severity := .warning
       , message := "Only a minority of risks have quantified financial impact" }]
    else []
  let breadth : Rat := (((if has_physical then 1 else 0) + (if has_transition then 1 else 0) : Nat) : Rat) / 2
  let depth := quantification_rate
  let score := breadth * (1/2 : Rat) + depth * (1/2 : Rat)
  { validator_name := "risk_coverage", score := score
  , findings := findings₁ ++ findings₂ ++ findings₃ }

end RiskCoverageValidator

namespace Scorer

/-- Model of `Scorer.DEFAULT_WEIGHTS` from `cda/scoring/scorer.py`. -/
def DEFAULT_WEIGHTS : List (String × Rat) :=
  [ ("consistency", 1/4), ("quantification", 3/10)
  , ("completeness", 1/4), ("risk_coverage", 1/5) ]

/-- Model of `Scorer.GRADE_MAP` from `cda/scoring/scorer.py`. -/
def GRADE_MAP : List (Rat × String) :=
  [ (90, "A"), (80, "B"), (70, "C"), (60, "D"), (0, "F") ]

/-- The grade loop of `Scorer.aggregate`: `grade = "F"`, then the first
entry of `GRADE_MAP` whose threshold is at most `overall` wins. -/
def gradeLoop : List (Rat × String) → Rat → String
  | [], _ => "F"
  | entry :: rest, overall =>
    if overall ≥ entry.1 then entry.2 else gradeLoop rest overall

/-- Python dict assignment semantics for building `dimension_scores`:
a later result with the same validator name overwrites the earlier one. -/
def dictInsert (d : List (String × Rat)) (k : String) (v : Rat) : List (String × Rat) :=
  if d.any fun kv => kv.1 = k then
    d.map fun kv => if kv.1 = k then (k, v) else kv
  else d ++ [(k, v)]

/-- Lookup `dict.get(k, 0)` on the association list. -/
def dictGet (d : List (String × Rat)) (k : String) : Rat :=
  match d.find? fun kv => kv.1 = k with
  | some kv => kv.2
  | none => 0

/-- The `dimension_scores` dict of `Scorer.aggregate`: every result whose
name has no `adapter:` marker contributes its score.  On a pydantic-valid
`ValidationResult` the `score is not None` guard is always true, since the
`score` field is declared `float`. -/
def dimensionScores (results : List ValidationResult) : List (String × Rat) :=
  results.foldl
    (fun d result =>
      if !pyStartsWith result.validator_name "adapter:" then
        dictInsert d result.validator_name result.score
      else d)
    []

/-- Critical-finding count of one result, as the penalty comprehension
counts it (`getattr(f, 'severity', None) == 'critical'`). -/
def criticalCount (r : ValidationResult) : Nat :=
  (r.findings.filter fun f => f.severity = Severity.critical).length

/-- The overall score before grading: weighted dimension sum times 100,
minus 5 per critical adapter finding, floored at 0. -/
def overallScore (weights : List (String × Rat)) (results : List ValidationResult) : Rat :=
  let dims := dimensionScores results
  let weighted := (weights.foldl (fun acc wkv => acc + dictGet dims wkv.1 * wkv.2) 0) * 100
  let adapter_results := results.filter fun r => pyStartsWith r.validator_name "adapter:"
  let penalty := (adapter_results.foldl (fun acc r => acc + criticalCount r) 0 : Nat)
  max (weighted - (penalty : Rat) * 5) 0

/-- Model of `AggregatedResult` from `cda/validation/base.py`; the `summary` string's
numeric display formatting (`%.0f`, `round(..., 1)`) is abstracted to the
exact rational values, which no claim inspects. -/
structure AggregatedResult where
  company_name : String
  overall_score : Rat
  grade : String
  dimension_scores : List (String × Rat)
  validation_results : List ValidationResult
  penalty_applied : Rat
  summary_weakest : String
deriving Repr

/-- Python `min(dims, key=dims.get)`: first key of minimal value, or the
`"N/A"` branch when the dict is empty. -/
def weakestDimension (dims : List (String × Rat)) : String :=
  match dims with
  | [] => "N/A"
  | kv :: rest => (rest.foldl (fun best cur => if cur.2 < best.2 then cur else best) kv).1

/-- Model of `Scorer.aggregate` from `cda/scoring/scorer.py`. -/
def aggregate (weights : List (String × Rat)) (extract : DisclosureExtract)
    (results : List ValidationResult) : AggregatedResult :=
  let dims := dimensionScores results
  let overall := overallScore weights results
  let adapter_results := results.filter fun r => pyStartsWith r.validator_name "adapter:"
  let penalty := (adapter_results.foldl (fun acc r => acc + criticalCount r) 0 : Nat)
  { company_name := extract.company_name
  , overall_score := overall
  , grade := gradeLoop GRADE_MAP overall
  , dimension_scores := dims.map fun kv => (kv.1, kv.2 * 100)
  , validation_results := results
  , penalty_applied := (penalty : Rat) * 5
  , summary_weakest := weakestDimension dims }

end Scorer

namespace ValidationPipeline

/-- A registered rule validator, recorded by the outcome its
`validate(extract)` call has on the run's record: a returned result or a
raised exception message. -/
structure PValidator where
  name : String
  outcome : Except String ValidationResult
deriving Repr

/-- The three outcomes an adapter's `cross_validate(extract)` call can
have: a returned result, a raised `DataNotAvailableError`, or any other
raised exception. -/
inductive AdapterOutcome where
  | ok (r : ValidationResult)
  | noData
  | failure (msg : String)
deriving Repr

/-- A registered adapter, recorded by the outcome of its call. -/
structure PAdapter where
  name : String
  outcome : AdapterOutcome
deriving Repr

/-- The synthetic result phase 1 substitutes for a raising validator
(`cda/validation/pipeline.py`, lines 88-98). -/
def validatorErrorResult (name msg : String) : ValidationResult :=
  { validator_name := name
  , score := 0
  , findings := [{ validator := name, code := "VALIDATOR-ERROR", severity := .critical
                 , message := "Validator " ++ name ++ " failed: " ++ msg }] }

/-- Phase 1 of `ValidationPipeline.run`: every registered validator in
order; a raising validator is replaced by its synthetic error result. -/
def runPhase1 (validators : List PValidator) : List ValidationResult :=
  validators.map fun v =>
    match v.outcome with
    | .ok r => r
    | .error e => validatorErrorResult v.name e

/-- The `ADAPTER-NO-DATA` info finding of the `DataNotAvailableError`
branch of `ValidationPipeline.run`. -/
def noDataFinding (name : String) : ValidationFinding :=
  { validator := name, code := "ADAPTER-NO-DATA", severity := .info
  , message := "External data not available from " ++ name ++ ", skipped." }

/-- The `ADAPTER-ERROR` warning finding of the generic exception branch of
`ValidationPipeline.run`. -/
def adapterErrorFinding (name msg : String) : ValidationFinding :=
  { validator := name, code := "ADAPTER-ERROR", severity := .warning
  , message := "Adapter " ++ name ++ " failed: " ++ msg }

/-- Phase 2 of `ValidationPipeline.run`: each adapter in order; the
`DataNotAvailableError` and generic-failure branches construct their
replacement result with `score=None`, which the pydantic model
`ValidationResult` (field `score: float`) rejects, so those branches
re-raise and the run aborts. -/
def runPhase2 : List PAdapter → Except String (List ValidationResult)
  | [] => .ok []
  | adapter :: rest => do
    let r ← match adapter.outcome with
      | .ok r => pure r
      | .noData =>
        mkValidationResult ("adapter:" ++ adapter.name) none [noDataFinding adapter.name]
      | .failure msg =>
        mkValidationResult ("adapter:" ++ adapter.name) none
          [adapterErrorFinding adapter.name msg]
    let rs ← runPhase2 rest
    pure (r :: rs)

/-- Model of `ValidationPipeline.run` from `cda/validation/pipeline.py`: phase-1 results,
then (when `cross_validate` is true and adapters are configured) phase-2
results appended; an exception escaping phase 2 aborts the whole call. -/
def run (validators : List PValidator) (adapters : List PAdapter)
    (cross_validate : Bool) : Except String (List ValidationResult) :=
  let results := runPhase1 validators
  if cross_validate && !adapters.isEmpty then
    match runPhase2 adapters with
    | .ok phase2 => .ok (results ++ phase2)
    | .error e => .error e
  else .ok results

end ValidationPipeline

namespace NewsDataSourceManager

open CredibilityScorer in
/-- A configured backend of
`climate-disclosure-agent-v2/cda/validation/news_data_source.py`, recorded
by its name and the outcome its `search_news` call has for the query of
this run: a returned article list or a raised exception. -/
structure Backend where
  name : String
  outcome : Except String (List NewsArticle)
deriving Repr

open CredibilityScorer in
/-- The fallback loop of `NewsDataSourceManager.search_news` over the
non-preferred backends: each backend is attempted once in registration
order; a non-empty article list returns immediately, an exception or an
empty list falls through to the next backend; `([], all names)` when every
backend fails.  The second component is the trace of attempted backends. -/
def tryFallback : List Backend → List NewsArticle × List String
  | [] => ([], [])
  | s :: rest =>
    match s.outcome with
    | .ok articles =>
      if articles ≠ [] then (articles, [s.name])
      else ((tryFallback rest).1, s.name :: (tryFallback rest).2)
    | .error _ => ((tryFallback rest).1, s.name :: (tryFallback rest).2)

open CredibilityScorer in
/-- Model of `NewsDataSourceManager.search_news` with an attempt trace: the
preferred source is tried first when configured (a raised exception or an
empty list falls through), then every other configured source in
registration order; the first non-empty result is returned, the empty
list when all fail.  Returns the result together with the ordered list of
attempted backends. -/
def searchNewsTrace (sources : List Backend) (preferred : String) :
    List NewsArticle × List String :=
  let others := sources.filter fun s => s.name ≠ preferred
  match sources.find? fun s => s.name = preferred with
  | some s =>
    (match s.outcome with
     | .ok articles =>
       if articles ≠ [] then (articles, [preferred])
       else ((tryFallback others).1, preferred :: (tryFallback others).2)
     | .error _ => ((tryFallback others).1, preferred :: (tryFallback others).2))
  | none => tryFallback others

open CredibilityScorer in
/-- Model of `NewsDataSourceManager.search_news` itself (result component). -/
def search_news (sources : List Backend) (preferred : String) : List NewsArticle :=
  (searchNewsTrace sources preferred).1

end NewsDataSourceManager

namespace NewsConsistencyValidator

open CredibilityScorer

/-- Modelled from the spec: the `Finding` class of `cda/base.py`, which is
imported by `cda/validation/news_consistency.py` but absent from the
source tree; per §3 a Finding carries validator name, code, severity,
message, optional field pointer, optional evidence and recommendation,
and the call sites additionally pass a free-form `metadata` mapping. -/
structure Finding where
  validator : String
  code : String
  severity : Severity
  message : String
  field : Option String := none
  evidence : Option String := none
  recommendation : Option String := none
  metadata : List (String × String) := []
deriving DecidableEq, Repr

/-- Result type of the news validator, mirroring the `ValidationResult`
of `cda/base.py` as the call sites use it (`validator_name`, `score`,
`max_score`, `findings`). -/
structure NWValidationResult where
  validator_name : String
  score : Rat
  max_score : Rat := 1
  findings : List Finding := []
deriving DecidableEq, Repr

/-- Model of `NewsConsistencyValidator._map_severity`. -/
def map_severity (severity_str : String) : Severity :=
  if severity_str = "critical" then .critical
  else if severity_str = "warning" then .warning
  else if severity_str = "info" then .info
  else .warning

/-- String `.value` rendering of a `ContradictionType` (str enum). -/
def contradictionTypeValue : ContradictionType → String
  | .omission => "omission"
  | .misrepresentation => "misrepresentation"
  | .timing_mismatch => "timing_mismatch"
  | .magnitude_mismatch => "magnitude_mismatch"

/-- The finding the success branch of `validate` builds per contradiction. -/
def contradictionFinding (c : Contradiction) : Finding :=
  { validator := "news_consistency"
  , code := "NEWS-" ++ (contradictionTypeValue c.contradiction_type).toUpper
  , severity := map_severity c.severity
  , message := contradictionTypeValue c.contradiction_type ++ ": " ++ c.evidence_from_news
  , field := some "credibility"
  , recommendation := some c.recommendation
  , metadata := [ ("event_date", c.event.date), ("source_url", c.event.source_article.url) ] }

/-- The `NEWS-ERROR` finding built by the `except` branch of `validate`. -/
def newsErrorFinding (msg : String) : Finding :=
  { validator := "news_consistency"
  , code := "NEWS-ERROR"
  , severity := .warning
  , message := "News consistency validation failed: " ++ msg
  , field := some "credibility"
  , recommendation := some "Check API keys and network connectivity for news services"
  , metadata := [("error", msg)] }

/-- The collaborators of one `validate` run, each recorded by the outcome
its call has on this run's inputs: the search manager, the event
extractor (a function of the found articles) and the cross-validator (a
function of the extracted events).  An `Except.error` is a raised
exception. -/
structure Stages where
  search : Except String (List NewsArticle)
  extractEvents : List NewsArticle → Except String (List EnvironmentalEvent)
  crossValidate : List EnvironmentalEvent → Except String (List Contradiction)

/-- The body of the `try` block of `NewsConsistencyValidator.validate`:
search, extract, cross-validate, score, then build the success result. -/
def tryBody (s : Stages) : Except String NWValidationResult := do
  let news_articles ← s.search
  let events ← s.extractEvents news_articles
  let contradictions ← s.crossValidate events
  let credibility_score := CredibilityScorer.score contradictions events.length
  pure { validator_name := "news_consistency"
       , score := credibility_score / 100
       , findings := contradictions.map contradictionFinding }

/-- Model of `NewsConsistencyValidator.validate` from `cda/validation/news_consistency.py`:
the whole staged computation runs under one `try`; any raised exception is
converted into a full-credit result with a single `NEWS-ERROR` warning
finding, never propagated. -/
def validate (s : Stages) : NWValidationResult :=
  match tryBody s with
  | .ok result => result
  | .error e =>
    { validator_name := "news_consistency"
    , score := 1
    , findings := [newsErrorFinding e] }

end NewsConsistencyValidator

/-! Concrete records and collaborator outcomes used by the witnesses and
counterexamples below. -/

/-- A record disclosing nothing: no emissions, targets, risks, governance
information or source references. -/
def emptyRec : DisclosureExtract :=
  { company_name := "TestCo", report_year := 2023 }

/-- A record covering every TCFD item `_check_tcfd` computes. -/
def fullRec : DisclosureExtract :=
  { company_name := "FullCo"
  , report_year := 2023
  , emissions := [{ scope := .scope_1, value := some 10, baseline_year := some 2020 }]
  , targets := [{ description := "reduce emissions" }]
  , risks := [{ risk_type := "physical", category := "acute_physical"
              , description := "flood opportunity"
              , financial_impact_value := some 5
              , mitigation_strategy := some "dikes" }]
  , governance := { board_oversight := some true, reporting_frequency := some "annual" }
  , source_references := [("strategy", "scenario analysis")] }

/-- A record declaring a net-zero-by-2050 target with no interim
milestones, Scope-3 emissions at 60% of total, no supply-chain risk entry
— and additionally asserted board oversight with no stated executive
incentive linkage. -/
def ceRec : DisclosureExtract :=
  { company_name := "CeCo"
  , report_year := 2023
  , emissions := [ { scope := .scope_1, value := some 40 }
                 , { scope := .scope_3, value := some 60 } ]
  , targets := [{ description := "net zero by 2050" }]
  , governance := { board_oversight := some true } }

/-- The same net-zero/Scope-3 scenario without the board-oversight claim. -/
def ceRec2 : DisclosureExtract :=
  { company_name := "CeCo"
  , report_year := 2023
  , emissions := [ { scope := .scope_1, value := some 40 }
                 , { scope := .scope_3, value := some 60 } ]
  , targets := [{ description := "net zero by 2050" }] }

/-- A news article sample. -/
def sampleArticle : CredibilityScorer.NewsArticle :=
  { title := "Fine reported", url := "https://example.com/a", source := "Wire"
  , published_date := "2023-06-15", snippet := "fined" }

/-- A critical environmental event extracted from `sampleArticle`. -/
def sampleEvent : CredibilityScorer.EnvironmentalEvent :=
  { event_type := .fine, description := "fined for pollution", date := "2023-06-15"
  , severity := "critical", source_article := sampleArticle, confidence := 9/10 }

/-- One critical-severity contradiction. -/
def criticalContradiction : CredibilityScorer.Contradiction :=
  { contradiction_type := .omission, severity := "critical"
  , evidence_from_news := "fine not disclosed", event := sampleEvent
  , impact_on_credibility := -30, recommendation := "disclose the fine" }

/-- Four dimension results carrying the same score, one per default
weight entry. -/
def uniformResults (q : Rat) : List ValidationResult :=
  [ { validator_name := "consistency", score := q }
  , { validator_name := "quantification", score := q }
  , { validator_name := "completeness", score := q }
  , { validator_name := "risk_coverage", score := q } ]

/-- Phase-1 sample: a succeeding, a raising and another succeeding
validator. -/
def okResult (name : String) (q : Rat) : ValidationResult :=
  { validator_name := name, score := q }

/-- The three recorded validators of the phase-1 sample run. -/
def sampleValidators : List ValidationPipeline.PValidator :=
  [ { name := "consistency", outcome := .ok (okResult "consistency" (4/5)) }
  , { name := "quantification", outcome := .error "boom" }
  , { name := "completeness", outcome := .ok (okResult "completeness" (3/5)) } ]

/-- Backend configuration for the fallback witness: the preferred backend
raises, the second returns no articles, the third succeeds. -/
def sampleBackends : List NewsDataSourceManager.Backend :=
  [ { name := "brave", outcome := .error "timeout" }
  , { name := "google", outcome := .ok [] }
  , { name := "bing", outcome := .ok [sampleArticle] } ]

/-- Collaborator outcomes for a news-validator run whose search stage
raises. -/
def failingStages : NewsConsistencyValidator.Stages :=
  { search := .error "API timeout"
  , extractEvents := fun _ => .ok []
  , crossValidate := fun _ => .ok [] }


/-- Number of contradictions of the given severity string. -/
def countSeverity (s : String) (cs : List CredibilityScorer.Contradiction) : Nat :=
  (cs.filter fun c => c.severity = s).length

/-! Theorems about the embedded components. -/

theorem credibility_foldl (cs : List CredibilityScorer.Contradiction) (a : Rat) :
    cs.foldl
      (fun (acc : Rat) contradiction =>
        if contradiction.severity = "critical" then acc - 30
        else if contradiction.severity = "warning" then acc - 15
        else if contradiction.severity = "info" then acc - 5
        else acc)
      a
    = a - ((30 : Rat) * countSeverity "critical" cs
        + 15 * countSeverity "warning" cs + 5 * countSeverity "info" cs) := by
  induction cs generalizing a with
  | nil => simp [countSeverity]
  | cons c rest ih =>
    simp only [List.foldl_cons, ih, countSeverity, List.filter_cons]
    by_cases h1 : c.severity = "critical"
    · simp [countSeverity, h1, show ¬("critical" = "warning") by decide,
        show ¬("critical" = "info") by decide]
      ring
    · by_cases h2 : c.severity = "warning"
      · simp [countSeverity, h1, h2, show ¬("warning" = "info") by decide]
        ring
      · by_cases h3 : c.severity = "info"
        · simp [countSeverity, h1, h2, h3]
          ring
        · simp [countSeverity, h1, h2, h3]

/-- Claim C4: `CredibilityScorer.score` starts at 100, subtracts 30 per
critical, 15 per warning and 5 per info contradiction, floors at 0 (the
zero-events/zero-contradictions special case agrees with this formula),
and in particular one critical contradiction with one event scores 70 and
no contradictions with no events score 100. -/
theorem credibility_score_formula (cs : List CredibilityScorer.Contradiction) (n : Nat) :
    CredibilityScorer.score cs n
      = max 0 (100 - ((30 : Rat) * countSeverity "critical" cs
          + 15 * countSeverity "warning" cs + 5 * countSeverity "info" cs))
    ∧ CredibilityScorer.score [criticalContradiction] 1 = 70
    ∧ CredibilityScorer.score [] 0 = 100 := by
  refine ⟨?_, ?_, ?_⟩
  · show (if n = 0 ∧ cs = [] then (100 : Rat) else _) = _
    by_cases h : n = 0 ∧ cs = []
    · rw [if_pos h, h.2]
      norm_num [countSeverity]
    · rw [if_neg h, credibility_foldl]
  · norm_num [CredibilityScorer.score, criticalContradiction]
  · norm_num [CredibilityScorer.score]

/-- Claim C1: a pipeline run with one adapter that raises
`DataNotAvailableError` (no reference dataset configured) aborts with a
pydantic `ValidationError` instead of appending the null-score info
result, because `ValidationResult.score` is declared `float` and rejects
`None`; the info-severity no-data finding itself carries no critical
finding, so the scorer penalty contribution of the intended result would
be 0. -/
theorem pipeline_no_data_adapter_aborts :
    ValidationPipeline.run [] [{ name := "sbti", outcome := .noData }] true
      = .error "ValidationError: score none is not an allowed value"
    ∧ mkValidationResult "adapter:sbti" none [ValidationPipeline.noDataFinding "sbti"]
      = .error "ValidationError: score none is not an allowed value"
    ∧ Scorer.criticalCount
        { validator_name := "adapter:sbti", score := 0
        , findings := [ValidationPipeline.noDataFinding "sbti"] } = 0 :=
  ⟨rfl, rfl, rfl⟩

/-- Claim C3: when the second of three registered validators raises, phase 1
substitutes the synthetic score-0 critical `VALIDATOR-ERROR` result in
place, keeps every other validator's result, and phase-2 (adapter)
results follow phase-1 results; but a run whose adapter list contains a
no-data adapter aborts from phase 2 with the pydantic error instead of
returning the list. -/
theorem pipeline_validator_error_isolation :
    ValidationPipeline.run sampleValidators [] true
      = .ok [ okResult "consistency" (4/5)
            , ValidationPipeline.validatorErrorResult "quantification" "boom"
            , okResult "completeness" (3/5) ]
    ∧ ValidationPipeline.run sampleValidators
        [{ name := "cdp", outcome := .ok (okResult "adapter:cdp" 1) }] true
      = .ok [ okResult "consistency" (4/5)
            , ValidationPipeline.validatorErrorResult "quantification" "boom"
            , okResult "completeness" (3/5)
            , okResult "adapter:cdp" 1 ]
    ∧ ValidationPipeline.run sampleValidators [{ name := "cdp", outcome := .noData }] true
      = .error "ValidationError: score none is not an allowed value" :=
  ⟨rfl, rfl, rfl⟩

/-- Claim C10: whenever any stage of the news validator raises (the staged
`try` body errors), `NewsConsistencyValidator.validate` does not
propagate: it returns full credit (score 1.0) with exactly one
warning-severity `NEWS-ERROR` finding — unlike the score-0 synthetic
result the orchestrator builds for validators whose exceptions reach it. -/
theorem news_validator_error_full_credit (s : NewsConsistencyValidator.Stages)
    (e : String) (h : NewsConsistencyValidator.tryBody s = .error e) :
    NewsConsistencyValidator.validate s
      = { validator_name := "news_consistency", score := 1
        , findings := [NewsConsistencyValidator.newsErrorFinding e] }
    ∧ (NewsConsistencyValidator.validate s).score
        ≠ (ValidationPipeline.validatorErrorResult "news_consistency" e).score := by
  constructor
  · simp [NewsConsistencyValidator.validate, h]
  · simp [NewsConsistencyValidator.validate, h, ValidationPipeline.validatorErrorResult]

/-- Witness for C10 at a run whose search stage raises `"API timeout"`. -/
theorem news_validator_error_full_credit_witness :
    NewsConsistencyValidator.validate failingStages
      = { validator_name := "news_consistency", score := 1
        , findings := [NewsConsistencyValidator.newsErrorFinding "API timeout"] }
    ∧ (NewsConsistencyValidator.validate failingStages).score
        ≠ (ValidationPipeline.validatorErrorResult "news_consistency" "API timeout").score :=
  news_validator_error_full_credit failingStages "API timeout" rfl

theorem gradeLoop_eq (o : Rat) :
    Scorer.gradeLoop Scorer.GRADE_MAP o
      = (if o ≥ 90 then "A" else if o ≥ 80 then "B" else if o ≥ 70 then "C"
         else if o ≥ 60 then "D" else "F") := by
  simp only [Scorer.GRADE_MAP, Scorer.gradeLoop]
  split_ifs <;> rfl

/-- Claim C8: the grade `Scorer.aggregate` assigns is the first matching
descending threshold over the overall score (≥90 A, ≥80 B, ≥70 C, ≥60 D,
else F); at the boundaries, an aggregate whose overall score is exactly
90 gets "A", 89.9 gets "B" and 0 gets "F". -/
theorem scorer_grade_thresholds :
    (∀ (weights : List (String × Rat)) (extract : DisclosureExtract)
        (results : List ValidationResult),
      (Scorer.aggregate weights extract results).grade
        = (if Scorer.overallScore weights results ≥ 90 then "A"
           else if Scorer.overallScore weights results ≥ 80 then "B"
           else if Scorer.overallScore weights results ≥ 70 then "C"
           else if Scorer.overallScore weights results ≥ 60 then "D"
           else "F"))
    ∧ Scorer.overallScore Scorer.DEFAULT_WEIGHTS (uniformResults (9/10)) = 90
    ∧ (Scorer.aggregate Scorer.DEFAULT_WEIGHTS emptyRec (uniformResults (9/10))).grade = "A"
    ∧ Scorer.overallScore Scorer.DEFAULT_WEIGHTS (uniformResults (899/1000)) = 899/10
    ∧ (Scorer.aggregate Scorer.DEFAULT_WEIGHTS emptyRec (uniformResults (899/1000))).grade = "B"
    ∧ Scorer.overallScore Scorer.DEFAULT_WEIGHTS (uniformResults 0) = 0
    ∧ (Scorer.aggregate Scorer.DEFAULT_WEIGHTS emptyRec (uniformResults 0)).grade = "F" := by
  refine ⟨?_, ?_, ?_, ?_, ?_, ?_, ?_⟩
  · intro weights extract results
    exact gradeLoop_eq (Scorer.overallScore weights results)
  all_goals
    have hc : pyStartsWith "consistency" "adapter:" = false := by decide
    have hq : pyStartsWith "quantification" "adapter:" = false := by decide
    have hm : pyStartsWith "completeness" "adapter:" = false := by decide
    have hr : pyStartsWith "risk_coverage" "adapter:" = false := by decide
    have e1 : (decide ("consistency" = "quantification")) = false := by decide
    have e2 : (decide ("consistency" = "completeness")) = false := by decide
    have e3 : (decide ("quantification" = "completeness")) = false := by decide
    have e4 : (decide ("consistency" = "risk_coverage")) = false := by decide
    have e5 : (decide ("quantification" = "risk_coverage")) = false := by decide
    have e6 : (decide ("completeness" = "risk_coverage")) = false := by decide
    norm_num [Scorer.aggregate, Scorer.DEFAULT_WEIGHTS, Scorer.overallScore,
      Scorer.dimensionScores, Scorer.dictInsert, Scorer.dictGet, Scorer.criticalCount,
      uniformResults, Scorer.gradeLoop, Scorer.GRADE_MAP, List.find?, hc, hq, hm, hr,
      e1, e2, e3, e4, e5, e6]

/-- Claim C2 counterexample: a record covering every TCFD item the validator
computes still scores 10/12, not 1.0 — the checklist denominator is 12
and only 10 items are ever evaluated. -/
theorem completeness_full_record_not_one :
    (CompletenessValidator.check_tcfd fullRec).all Prod.snd = true
    ∧ (CompletenessValidator.validate fullRec).score = 5/6
    ∧ (CompletenessValidator.validate fullRec).score ≠ 1 := by
  have h10 : CompletenessValidator.coveredItems fullRec = 10 := by decide
  refine ⟨by decide, ?_, ?_⟩
  · show (CompletenessValidator.coveredItems fullRec : Rat) / (CompletenessValidator.totalItems : Nat) = 5/6
    rw [h10]
    norm_num [CompletenessValidator.totalItems]
  · show (CompletenessValidator.coveredItems fullRec : Rat) / (CompletenessValidator.totalItems : Nat) ≠ 1
    rw [h10]
    norm_num [CompletenessValidator.totalItems]

/-- Claim C2 (amended): `CompletenessValidator.validate` scores
(covered computed items) / 12 over the 12-item four-pillar checklist, of
which only 10 items are computed, so the score is at most 10/12 and in
particular always strictly below 1.0. -/
theorem completeness_score_formula (e : DisclosureExtract) :
    (CompletenessValidator.validate e).score
      = (CompletenessValidator.coveredItems e : Rat) / 12
    ∧ CompletenessValidator.coveredItems e ≤ 10
    ∧ (CompletenessValidator.validate e).score < 1 := by
  have hlen : CompletenessValidator.coveredItems e ≤ 10 := by
    have h := List.length_filter_le Prod.snd (CompletenessValidator.check_tcfd e)
    simpa [CompletenessValidator.coveredItems, CompletenessValidator.check_tcfd] using h
  have hscore : (CompletenessValidator.validate e).score
      = (CompletenessValidator.coveredItems e : Rat) / 12 := by
    show (CompletenessValidator.coveredItems e : Rat) / (CompletenessValidator.totalItems : Nat) = _
    norm_num [CompletenessValidator.totalItems]
  refine ⟨hscore, hlen, ?_⟩
  rw [hscore, div_lt_one (by norm_num)]
  exact_mod_cast lt_of_le_of_lt hlen (by norm_num)

/-- Claim C7: `RiskCoverageValidator.validate` scores 0.5 × (physical present +
transition present)/2 + 0.5 × (fraction of risk entries with a quantified
financial impact, over max(#risks, 1)); a missing physical (transition)
risk category yields the critical finding RISK-001 (RISK-002); a record
with zero risk entries scores 0.0 with both critical findings present. -/
theorem risk_coverage_score_formula (e : DisclosureExtract) :
    ((RiskCoverageValidator.validate e).score
      = ((((if (e.risks.any fun r => r.risk_type = "physical") then 1 else 0)
           + (if (e.risks.any fun r => r.risk_type = "transition") then 1 else 0) : Nat) : Rat) / 2)
          * (1/2)
        + (((e.risks.filter fun r => r.financial_impact_value ≠ none).length : Rat)
            / ((max e.risks.length 1 : Nat) : Rat)) * (1/2))
    ∧ ((e.risks.any fun r => r.risk_type = "physical") = false →
        ({ validator := "risk_coverage", code := "RISK-001", severity := Severity.critical
         , message := "No physical climate risks disclosed" } : ValidationFinding)
          ∈ (RiskCoverageValidator.validate e).findings)
    ∧ ((e.risks.any fun r => r.risk_type = "transition") = false →
        ({ validator := "risk_coverage", code := "RISK-002", severity := Severity.critical
         , message := "No transition climate risks disclosed" } : ValidationFinding)
          ∈ (RiskCoverageValidator.validate e).findings)
    ∧ (e.risks = [] →
        (RiskCoverageValidator.validate e).score = 0
        ∧ ({ validator := "risk_coverage", code := "RISK-001", severity := Severity.critical
           , message := "No physical climate risks disclosed" } : ValidationFinding)
            ∈ (RiskCoverageValidator.validate e).findings
        ∧ ({ validator := "risk_coverage", code := "RISK-002", severity := Severity.critical
           , message := "No transition climate risks disclosed" } : ValidationFinding)
            ∈ (RiskCoverageValidator.validate e).findings) := by
  refine ⟨rfl, ?_, ?_, ?_⟩
  · intro h
    simp [RiskCoverageValidator.validate, h]
  · intro h
    simp [RiskCoverageValidator.validate, h]
  · intro h
    refine ⟨?_, ?_, ?_⟩
    · show ((((if (e.risks.any fun r => r.risk_type = "physical") then 1 else 0)
           + (if (e.risks.any fun r => r.risk_type = "transition") then 1 else 0) : Nat) : Rat) / 2)
          * (1/2)
        + (((e.risks.filter fun r => r.financial_impact_value ≠ none).length : Rat)
            / ((max e.risks.length 1 : Nat) : Rat)) * (1/2) = 0
      rw [h]
      norm_num
    · simp [RiskCoverageValidator.validate, h]
    · simp [RiskCoverageValidator.validate, h]

/-- Witness for C7 at a record with zero risk entries. -/
theorem risk_coverage_empty_record_witness :
    (RiskCoverageValidator.validate emptyRec).score = 0
    ∧ ({ validator := "risk_coverage", code := "RISK-001", severity := Severity.critical
       , message := "No physical climate risks disclosed" } : ValidationFinding)
        ∈ (RiskCoverageValidator.validate emptyRec).findings
    ∧ ({ validator := "risk_coverage", code := "RISK-002", severity := Severity.critical
       , message := "No transition climate risks disclosed" } : ValidationFinding)
        ∈ (RiskCoverageValidator.validate emptyRec).findings :=
  (risk_coverage_score_formula emptyRec).2.2.2 rfl

theorem consistency_foldl (e : DisclosureExtract) (rules : List ConsistencyValidator.Rule)
    (fs : List ValidationFinding) (p a : Nat) :
    rules.foldl
      (fun (acc : List ValidationFinding × Nat × Nat) rule =>
        if rule.condition e then
          if rule.check e then (acc.1, acc.2.1 + 1, acc.2.2 + 1)
          else (acc.1 ++ [ConsistencyValidator.ruleFinding rule], acc.2.1, acc.2.2 + 1)
        else acc)
      (fs, p, a)
    = (fs ++ (rules.filter fun r => r.condition e && !r.check e).map
          ConsistencyValidator.ruleFinding
      , p + (rules.filter fun r => r.condition e && r.check e).length
      , a + (rules.filter fun r => r.condition e).length) := by
  induction rules generalizing fs p a with
  | nil => simp
  | cons r rest ih =>
    simp only [List.foldl_cons, List.filter_cons]
    cases hc : r.condition e
    · simp [hc, ih]
    · cases hk : r.check e
      · simp [hc, hk, ih, Nat.add_assoc, Nat.add_comm, Nat.add_left_comm]
      · simp [hc, hk, ih, Nat.add_assoc, Nat.add_comm, Nat.add_left_comm]

theorem consistency_validate_eq (e : DisclosureExtract) :
    ConsistencyValidator.validate e
      = { validator_name := "consistency"
        , score := if 0 < ConsistencyValidator.applicableCount e
            then (ConsistencyValidator.passedCount e : Rat)
                / (ConsistencyValidator.applicableCount e : Rat)
            else 1
        , findings := (ConsistencyValidator.RULES.filter
              fun r => r.condition e && !r.check e).map ConsistencyValidator.ruleFinding } := by
  simp only [ConsistencyValidator.validate, consistency_foldl, List.nil_append, Nat.zero_add,
    ConsistencyValidator.applicableCount, ConsistencyValidator.passedCount, gt_iff_lt]

/-- Claim C9: when no consistency rule's condition applies,
`ConsistencyValidator.validate` returns score 1.0 and no findings; in
general, when at least one rule applies, the score is (applicable rules
whose check passed) / (applicable rules). -/
theorem consistency_score_formula (e : DisclosureExtract) :
    ((∀ r ∈ ConsistencyValidator.RULES, r.condition e = false) →
        (ConsistencyValidator.validate e).score = 1
        ∧ (ConsistencyValidator.validate e).findings = [])
    ∧ (0 < ConsistencyValidator.applicableCount e →
        (ConsistencyValidator.validate e).score
          = (ConsistencyValidator.passedCount e : Rat)
              / (ConsistencyValidator.applicableCount e : Rat)) := by
  rw [consistency_validate_eq]
  constructor
  · intro h
    have hcount : ConsistencyValidator.applicableCount e = 0 := by
      simp only [ConsistencyValidator.applicableCount, List.length_eq_zero,
        List.filter_eq_nil_iff]
      intro r hr
      simp [h r hr]
    have hnil2 :
        ConsistencyValidator.RULES.filter (fun r => r.condition e && !r.check e) = [] := by
      rw [List.filter_eq_nil_iff]
      intro r hr
      simp [h r hr]
    simp [hcount, hnil2]
  · intro h
    simp [h]

/-- Witness for C9 at a record on which no rule's condition applies. -/
theorem consistency_score_formula_witness :
    (ConsistencyValidator.validate emptyRec).score = 1
    ∧ (ConsistencyValidator.validate emptyRec).findings = [] :=
  (consistency_score_formula emptyRec).1 (by decide)

/-- Claim C6 counterexample: `ceRec` declares a net-zero-by-2050 target with no
interim milestones, has Scope-3 emissions at 60% of total and no
supply-chain risk entry, yet `ConsistencyValidator.validate` produces
three findings (CONSIST-005 fires as well, because the record also claims
board oversight without an executive-incentive linkage), not exactly two. -/
theorem consistency_scenario_three_findings :
    ConsistencyValidator.scope3_material ceRec = true
    ∧ ceRec.risks = []
    ∧ (ConsistencyValidator.validate ceRec).findings.map (fun f => f.code)
        = ["CONSIST-001", "CONSIST-002", "CONSIST-005"]
    ∧ (ConsistencyValidator.validate ceRec).findings.length ≠ 2 := by
  refine ⟨?_, rfl, ?_, ?_⟩
  · simp +decide [ConsistencyValidator.scope3_material, ceRec]
    norm_num
  · simp +decide [ConsistencyValidator.validate, ConsistencyValidator.RULES,
      ConsistencyValidator.scope3_material, ceRec, ConsistencyValidator.ruleFinding]
    norm_num
  · simp +decide [ConsistencyValidator.validate, ConsistencyValidator.RULES,
      ConsistencyValidator.scope3_material, ceRec, ConsistencyValidator.ruleFinding]
    norm_num

/-- Claim C6 (amended): on a record whose only target declares net zero with no
interim milestones, whose Scope-3 emissions are material (>40% of total,
e.g. 60%), with no supply-chain risk entry, and on which no further rule
condition applies (no investment-keyword mentions, no asserted board
oversight), `ConsistencyValidator.validate` produces exactly the critical
CONSIST-001 and warning CONSIST-002 findings and a score below 1.0. -/
theorem consistency_net_zero_scope3 (e : DisclosureExtract) (t : TargetData)
    (h1 : e.targets = [t])
    (h2 : pyInLower "net zero" t.description = true)
    (h3 : t.interim_targets = [])
    (h4 : ConsistencyValidator.scope3_material e = true)
    (h5 : (e.risks.any fun r =>
        ["supply_chain", "value_chain", "upstream", "downstream"].any
          fun c => r.category = c) = false)
    (h6 : ConsistencyValidator.mentions_climate_investment e = false)
    (h7 : e.governance.board_oversight ≠ some true) :
    (ConsistencyValidator.validate e).findings
      = [ { validator := "consistency", code := "CONSIST-001", severity := Severity.critical
          , message := "Net Zero target declared but no interim milestones found" }
        , { validator := "consistency", code := "CONSIST-002", severity := Severity.warning
          , message := "Scope 3 appears material (>40% of total) but no supply chain risk disclosed" } ]
    ∧ (ConsistencyValidator.validate e).score < 1 := by
  have k1 : (e.targets.any fun tt => pyInLower "net zero" tt.description) = true := by
    rw [h1]
    simp [h2]
  have k1c : ((e.targets.filter fun tt => pyInLower "net zero" tt.description).any
      fun tt => !tt.interim_targets.isEmpty) = false := by
    rw [h1]
    simp [h2, h3]
  have k3 : (decide (1 < e.targets.length)) = false := by
    rw [h1]
    rfl
  have k5 : (decide (e.governance.board_oversight = some true)) = false :=
    decide_eq_false h7
  have hv := consistency_validate_eq e
  have ha : ConsistencyValidator.applicableCount e = 2 := by
    simp only [ConsistencyValidator.applicableCount, ConsistencyValidator.RULES,
      List.filter_cons, List.filter_nil, k1, h4, k3, h6, k5]
    rfl
  have hp : ConsistencyValidator.passedCount e = 0 := by
    simp only [ConsistencyValidator.passedCount, ConsistencyValidator.RULES,
      List.filter_cons, List.filter_nil, k1, k1c, h4, h5, k3, h6, k5,
      Bool.true_and, Bool.false_and, Bool.and_false]
    rfl
  constructor
  · rw [hv]
    show (ConsistencyValidator.RULES.filter
        fun r => r.condition e && !r.check e).map ConsistencyValidator.ruleFinding = _
    simp only [ConsistencyValidator.RULES, List.filter_cons, List.filter_nil,
      k1, k1c, h4, h5, k3, h6, k5, Bool.true_and, Bool.false_and, Bool.not_false,
      Bool.and_true, Bool.and_false]
    simp [ConsistencyValidator.ruleFinding]
  · rw [hv]
    simp [ha, hp]

/-- Witness for the amended C6 at the concrete scenario record. -/
theorem consistency_net_zero_scope3_witness :
    (ConsistencyValidator.validate ceRec2).findings
      = [ { validator := "consistency", code := "CONSIST-001", severity := Severity.critical
          , message := "Net Zero target declared but no interim milestones found" }
        , { validator := "consistency", code := "CONSIST-002", severity := Severity.warning
          , message := "Scope 3 appears material (>40% of total) but no supply chain risk disclosed" } ]
    ∧ (ConsistencyValidator.validate ceRec2).score < 1 :=
  consistency_net_zero_scope3 ceRec2 { description := "net zero by 2050" }
    rfl (by decide) rfl
    (by simp +decide [ConsistencyValidator.scope3_material, ceRec2]
        norm_num)
    (by decide) (by decide) (by decide)

namespace NewsDataSourceManager

theorem tryFallback_trace_pre (l : List Backend) :
    ∃ t, (tryFallback l).2 ++ t = l.map fun s => s.name := by
  induction l with
  | nil => exact ⟨[], rfl⟩
  | cons s rest ih =>
    obtain ⟨t, ht⟩ := ih
    match hout : s.outcome with
    | .ok articles =>
      by_cases harts : articles = []
      · refine ⟨t, ?_⟩
        simp [tryFallback, hout, harts, ht]
      · refine ⟨rest.map fun s => s.name, ?_⟩
        simp [tryFallback, hout, harts]
    | .error msg =>
      refine ⟨t, ?_⟩
      simp [tryFallback, hout, ht]

theorem tryFallback_empty_trace (l : List Backend) (h : (tryFallback l).1 = []) :
    (tryFallback l).2 = l.map fun s => s.name := by
  induction l with
  | nil => rfl
  | cons s rest ih =>
    match hout : s.outcome with
    | .ok articles =>
      by_cases harts : articles = []
      · simp only [tryFallback, hout, harts] at h ⊢
        simp only [ne_eq, not_true_eq_false, if_false] at h ⊢
        simp [ih h]
      · exfalso
        simp only [tryFallback, hout, if_pos (by simpa using harts)] at h
        exact harts h
    | .error msg =>
      simp only [tryFallback, hout] at h ⊢
      simp [ih h]

theorem tryFallback_success (l : List Backend) (h : (tryFallback l).1 ≠ []) :
    ∃ s ∈ l, s.outcome = Except.ok (tryFallback l).1
      ∧ (tryFallback l).2.getLast? = some s.name := by
  induction l with
  | nil => exact absurd rfl h
  | cons s rest ih =>
    match hout : s.outcome with
    | .ok articles =>
      by_cases harts : articles = []
      · simp only [tryFallback, hout, harts, ne_eq, not_true_eq_false, if_false] at h ⊢
        obtain ⟨s', hmem, hout', hlast⟩ := ih h
        refine ⟨s', List.mem_cons_of_mem s hmem, hout', ?_⟩
        exact Option.mem_def.mp (List.mem_getLast?_cons (Option.mem_def.mpr hlast))
      · simp only [tryFallback, hout, if_pos (by simpa using harts)] at h ⊢
        exact ⟨s, List.mem_cons_self s rest, by rw [hout], by simp⟩
    | .error msg =>
      simp only [tryFallback, hout] at h ⊢
      obtain ⟨s', hmem, hout', hlast⟩ := ih h
      refine ⟨s', List.mem_cons_of_mem s hmem, hout', ?_⟩
      exact Option.mem_def.mp (List.mem_getLast?_cons (Option.mem_def.mpr hlast))

theorem filter_map_name (sources : List Backend) (preferred : String) :
    ((sources.filter fun s => s.name ≠ preferred).map fun s => s.name)
      = (sources.map fun s => s.name).filter fun n => n ≠ preferred := by
  simp only [ne_eq, decide_not]
  induction sources with
  | nil => rfl
  | cons s rest ih =>
    by_cases hs : s.name = preferred
    · simp [hs, ih]
    · simp [hs, ih]

end NewsDataSourceManager

/-- Claim C5: per `search_news` call, the preferred backend (when configured) is
attempted first; attempts never repeat a backend (given the distinct names
a Python dict guarantees); the attempt sequence is always an initial
segment of "preferred, then every other configured backend in
registration order"; an empty result is returned only after every
configured backend was attempted; and a non-empty result comes from a
configured backend that was the last one attempted (the first non-empty
result short-circuits the rest). -/
theorem news_manager_fallback (sources : List NewsDataSourceManager.Backend)
    (preferred : String) (hnd : (sources.map fun s => s.name).Nodup) :
    (NewsDataSourceManager.searchNewsTrace sources preferred).2.Nodup
    ∧ (∃ t, (NewsDataSourceManager.searchNewsTrace sources preferred).2 ++ t
        = (if sources.any fun s => s.name = preferred then [preferred] else [])
          ++ ((sources.filter fun s => s.name ≠ preferred).map fun s => s.name))
    ∧ ((NewsDataSourceManager.searchNewsTrace sources preferred).1 = [] →
        (NewsDataSourceManager.searchNewsTrace sources preferred).2
          = (if sources.any fun s => s.name = preferred then [preferred] else [])
            ++ ((sources.filter fun s => s.name ≠ preferred).map fun s => s.name))
    ∧ ((NewsDataSourceManager.searchNewsTrace sources preferred).1 ≠ [] →
        ∃ s ∈ sources, s.outcome
            = Except.ok (NewsDataSourceManager.searchNewsTrace sources preferred).1
          ∧ (NewsDataSourceManager.searchNewsTrace sources preferred).2.getLast?
              = some s.name) := by
  have hfmn := NewsDataSourceManager.filter_map_name sources preferred
  have hfilter_nodup :
      (((sources.filter fun s => s.name ≠ preferred).map fun s => s.name)).Nodup := by
    rw [hfmn]
    exact hnd.filter _
  have hpref_notmem :
      preferred ∉ ((sources.filter fun s => s.name ≠ preferred).map fun s => s.name) := by
    rw [hfmn]
    intro hmem
    have h' := List.of_mem_filter hmem
    simp at h'
  have hsub : ∀ s, s ∈ (sources.filter fun s => s.name ≠ preferred) → s ∈ sources :=
    fun s hs => List.mem_of_mem_filter hs
  rcases hfind : sources.find? (fun s => s.name = preferred) with _ | s0
  · -- no backend named `preferred` is configured
    have hany : (sources.any fun s => s.name = preferred) = false := by
      rw [List.any_eq_false]
      intro x hx
      have h' := List.find?_eq_none.mp hfind x hx
      simpa using h'
    have hST : NewsDataSourceManager.searchNewsTrace sources preferred
        = NewsDataSourceManager.tryFallback (sources.filter fun s => s.name ≠ preferred) := by
      simp only [NewsDataSourceManager.searchNewsTrace, hfind]
    obtain ⟨t, ht⟩ := NewsDataSourceManager.tryFallback_trace_pre
      (sources.filter fun s => s.name ≠ preferred)
    refine ⟨?_, ?_, ?_, ?_⟩
    · rw [hST]
      exact ((ht ▸ List.sublist_append_left _ t)).nodup hfilter_nodup
    · refine ⟨t, ?_⟩
      rw [hST, hany, ht]
      simp
    · intro hres
      rw [hST] at hres ⊢
      rw [hany, NewsDataSourceManager.tryFallback_empty_trace _ hres]
      simp
    · intro hres
      rw [hST] at hres ⊢
      obtain ⟨s, hmem, hout, hlast⟩ := NewsDataSourceManager.tryFallback_success _ hres
      exact ⟨s, hsub s hmem, hout, hlast⟩
  · -- the preferred backend is configured as `s0`
    have hname : s0.name = preferred := by
      have h' := List.find?_some hfind
      simpa using h'
    have hmem0 : s0 ∈ sources := List.mem_of_find?_eq_some hfind
    have hany : (sources.any fun s => s.name = preferred) = true := by
      rw [List.any_eq_true]
      exact ⟨s0, hmem0, by simp [hname]⟩
    cases hout : s0.outcome with
    | error msg =>
      have hST : NewsDataSourceManager.searchNewsTrace sources preferred
          = ((NewsDataSourceManager.tryFallback
                (sources.filter fun s => s.name ≠ preferred)).1
            , preferred :: (NewsDataSourceManager.tryFallback
                (sources.filter fun s => s.name ≠ preferred)).2) := by
        simp only [NewsDataSourceManager.searchNewsTrace, hfind, hout]
      obtain ⟨t, ht⟩ := NewsDataSourceManager.tryFallback_trace_pre
        (sources.filter fun s => s.name ≠ preferred)
      have htf_nodup := ((ht ▸ List.sublist_append_left _ t)).nodup hfilter_nodup
      have htf_notmem : preferred ∉ (NewsDataSourceManager.tryFallback
          (sources.filter fun s => s.name ≠ preferred)).2 := by
        intro hmem
        exact hpref_notmem (ht ▸ List.mem_append_left t hmem)
      refine ⟨?_, ?_, ?_, ?_⟩
      · rw [hST]
        exact List.nodup_cons.mpr ⟨htf_notmem, htf_nodup⟩
      · refine ⟨t, ?_⟩
        rw [hST, hany, List.cons_append, ht]
        simp
      · intro hres
        rw [hST] at hres ⊢
        simp only at hres
        rw [hany, NewsDataSourceManager.tryFallback_empty_trace _ hres]
        simp
      · intro hres
        rw [hST] at hres ⊢
        simp only at hres
        obtain ⟨s, hmem, hout', hlast⟩ := NewsDataSourceManager.tryFallback_success _ hres
        exact ⟨s, hsub s hmem, hout'
          , Option.mem_def.mp (List.mem_getLast?_cons (Option.mem_def.mpr hlast))⟩
    | ok arts =>
      by_cases harts : arts = []
      · have hST : NewsDataSourceManager.searchNewsTrace sources preferred
            = ((NewsDataSourceManager.tryFallback
                  (sources.filter fun s => s.name ≠ preferred)).1
              , preferred :: (NewsDataSourceManager.tryFallback
                  (sources.filter fun s => s.name ≠ preferred)).2) := by
          simp only [NewsDataSourceManager.searchNewsTrace, hfind, hout, harts]
          simp
        obtain ⟨t, ht⟩ := NewsDataSourceManager.tryFallback_trace_pre
          (sources.filter fun s => s.name ≠ preferred)
        have htf_nodup := ((ht ▸ List.sublist_append_left _ t)).nodup hfilter_nodup
        have htf_notmem : preferred ∉ (NewsDataSourceManager.tryFallback
            (sources.filter fun s => s.name ≠ preferred)).2 := by
          intro hmem
          exact hpref_notmem (ht ▸ List.mem_append_left t hmem)
        refine ⟨?_, ?_, ?_, ?_⟩
        · rw [hST]
          exact List.nodup_cons.mpr ⟨htf_notmem, htf_nodup⟩
        · refine ⟨t, ?_⟩
          rw [hST, hany, List.cons_append, ht]
          simp
        · intro hres
          rw [hST] at hres ⊢
          simp only at hres
          rw [hany, NewsDataSourceManager.tryFallback_empty_trace _ hres]
          simp
        · intro hres
          rw [hST] at hres ⊢
          simp only at hres
          obtain ⟨s, hmem, hout', hlast⟩ := NewsDataSourceManager.tryFallback_success _ hres
          exact ⟨s, hsub s hmem, hout'
            , Option.mem_def.mp (List.mem_getLast?_cons (Option.mem_def.mpr hlast))⟩
      · have hST : NewsDataSourceManager.searchNewsTrace sources preferred
            = (arts, [preferred]) := by
          simp only [NewsDataSourceManager.searchNewsTrace, hfind, hout]
          simp [harts]
        refine ⟨?_, ?_, ?_, ?_⟩
        · rw [hST]
          simp
        · refine ⟨(sources.filter fun s => s.name ≠ preferred).map fun s => s.name, ?_⟩
          rw [hST, hany]
          simp
        · intro hres
          rw [hST] at hres
          exact absurd hres harts
        · intro hres
          rw [hST]
          exact ⟨s0, hmem0, by rw [hout], by simp [hname]⟩

/-- Witness for C5 at a configuration whose preferred backend raises,
whose second backend returns no articles and whose third succeeds. -/
theorem news_manager_fallback_witness :
    (NewsDataSourceManager.searchNewsTrace sampleBackends "brave").2.Nodup
    ∧ (∃ t, (NewsDataSourceManager.searchNewsTrace sampleBackends "brave").2 ++ t
        = (if sampleBackends.any fun s => s.name = "brave" then ["brave"] else [])
          ++ ((sampleBackends.filter fun s => s.name ≠ "brave").map fun s => s.name))
    ∧ ((NewsDataSourceManager.searchNewsTrace sampleBackends "brave").1 = [] →
        (NewsDataSourceManager.searchNewsTrace sampleBackends "brave").2
          = (if sampleBackends.any fun s => s.name = "brave" then ["brave"] else [])
            ++ ((sampleBackends.filter fun s => s.name ≠ "brave").map fun s => s.name))
    ∧ ((NewsDataSourceManager.searchNewsTrace sampleBackends "brave").1 ≠ [] →
        ∃ s ∈ sampleBackends, s.outcome
            = Except.ok (NewsDataSourceManager.searchNewsTrace sampleBackends "brave").1
          ∧ (NewsDataSourceManager.searchNewsTrace sampleBackends "brave").2.getLast?
              = some s.name) :=
  news_manager_fallback sampleBackends "brave" (by decide)
